import Mathlib

/-!
Verification of the OpenSRF Python runtime (osrf/*.py) against its
natural-language specification.  The Python code is shallowly embedded:
pure fragments become Lean functions, raising code returns values in
`Except`, and the CPython data model (dicts, class instances) is made
explicit as association lists.
-/

namespace OpenSRF

/-- Wire protocol of a registered network class (net_obj.py,
`NetworkRegistry.protocol`): either a keyed object or a positional array. -/
inductive WireProtocol where
  | hash
  | array
  deriving DecidableEq, Repr

/-- One entry of the global class registry (net_obj.py `NetworkRegistry`):
a class hint, the ordered field names, and the wire protocol. -/
structure NetRegEntry where
  hint : String
  keys : List String
  protocol : WireProtocol
  deriving DecidableEq, Repr

/-- The global registry `NetworkRegistry.registry`, a mapping from hint to
entry, embedded as an association list. -/
abbrev Registry := List NetRegEntry

/-- `NetworkRegistry.get_registry(hint)` (net_obj.py line 27). -/
def getRegistry (R : Registry) (hint : String) : Option NetRegEntry :=
  R.find? (fun e => e.hint == hint)

/-- A Python value as it circulates through the osrf codec after decoding:
None, bool, int, str, list, dict, or a `NetworkObject` instance
(class hint plus its `_data` dict).  CPython floats are not modelled. -/
inductive NetVal where
  | vnull
  | vbool (b : Bool)
  | vint (n : Int)
  | vstr (s : String)
  | varr (xs : List NetVal)
  | vobj (fields : List (String × NetVal))
  | vcls (hint : String) (data : List (String × NetVal))

/-- A plain parsed-JSON value as produced by `simplejson.loads`: the same
universe without class instances. -/
inductive PyVal where
  | pnull
  | pbool (b : Bool)
  | pint (n : Int)
  | pstr (s : String)
  | plist (xs : List PyVal)
  | pdict (fields : List (String × PyVal))

/-- Modelled from the spec: const.py is not under src/.  `OSRF_JSON_CLASS_KEY`
is the wire key carrying the class hint of a wrapped object. -/
def OSRF_JSON_CLASS_KEY : String := "__c"

/-- Modelled from the spec: const.py is not under src/.  `OSRF_JSON_PAYLOAD_KEY`
is the wire key carrying the payload of a wrapped object. -/
def OSRF_JSON_PAYLOAD_KEY : String := "__p"

/-- Python `dict` read access `d.get(k)`, on the association-list embedding of
a dict.  Real dicts have unique keys, so first-match lookup is faithful. -/
def dictGet [BEq κ] (fields : List (κ × α)) (k : κ) : Option α :=
  (fields.find? (fun kv => kv.1 == k)).map Prod.snd

/-- Python `dict` write access `d[k] = v`: overwrite in place if the key
exists, append otherwise (insertion order is the list order). -/
def dictSet [DecidableEq κ] (fields : List (κ × α)) (k : κ) (v : α) : List (κ × α) :=
  match fields with
  | [] => [(k, v)]
  | kv :: rest => if kv.1 = k then (k, v) :: rest else kv :: dictSet rest k v

lemma sizeOf_lt_of_mem_pylist {xs : List PyVal} {x : PyVal} (h : x ∈ xs) :
    sizeOf x < sizeOf (PyVal.plist xs) := by
  have := List.sizeOf_lt_of_mem h
  cases xs
  · simp_all
  · simp_all
    omega

lemma sizeOf_lt_of_mem_pyfields {fs : List (String × PyVal)} {kv : String × PyVal}
    (h : kv ∈ fs) : sizeOf kv.2 < sizeOf (PyVal.pdict fs) := by
  have h1 := List.sizeOf_lt_of_mem h
  obtain ⟨k, v⟩ := kv
  simp only [Prod.mk.sizeOf_spec] at h1
  simp only [PyVal.pdict.sizeOf_spec]
  omega

lemma sizeOf_lt_of_dictGet {fs : List (String × PyVal)} {k : String} {v : PyVal}
    (h : dictGet fs k = some v) : sizeOf v < sizeOf (PyVal.pdict fs) := by
  unfold dictGet at h
  obtain ⟨kv, hfind⟩ : ∃ kv, fs.find? (fun kv => kv.1 == k) = some kv ∧ kv.2 = v := by
    cases hf : fs.find? (fun kv => kv.1 == k)
    · simp [hf] at h
    · simp [hf] at h
      simp_all
  obtain ⟨hmem, hv⟩ := hfind
  subst hv
  exact sizeOf_lt_of_mem_pyfields (List.mem_of_find?_eq_some hmem)

/-- Zips the declared key list of an array-protocol class with the positional
payload values, padding missing trailing positions (net_obj.py lines 147-152:
`if len(sub_object) > entry ... else None`). -/
def padZip (keys : List String) (xs : List α) (pad : α) : List (String × α) :=
  match keys, xs with
  | [], _ => []
  | k :: ks, [] => (k, pad) :: padZip ks [] pad
  | k :: ks, x :: xt => (k, x) :: padZip ks xt pad

/-- net_obj.py `parse_net_object` (lines 138-179), the JSON-surface decoder.

The Python code walks the parsed-JSON tree.  A dict carrying both the class key
and the payload key is promoted: a registered hint yields an instance whose
`_data` maps each declared key (in declared order) to the decoded payload value
at that key / position, `None` for absences.  An UNREGISTERED hint reaches
`reg.protocol` with `reg = None`, raising AttributeError *after* `obj` has been
rebound to `{}` (line 145); the bare `except` then falls through to the generic
walk of the now-empty dict, so the function returns an empty dict.  A dict
whose class-key value is itself a list or dict raises TypeError already at
`NetworkRegistry.get_registry` (unhashable key, before the rebind), so the
generic walk sees the original dict.  Hashable non-string hints miss the
registry and behave like unregistered ones.  A registered class whose payload
has the wrong shape (non-list for array protocol, non-dict for hash) raises at
the first subscript/`get` and likewise returns the empty rebound dict, except
when the declared key list is empty, in which case no subscript happens and an
empty instance is built.  Parsing of payload values is hoisted before the
key lookup here (the Python interleaves them); both are pure, so the result
is unchanged. -/
def parse_net_object (R : Registry) : PyVal → NetVal
  | .pnull => .vnull
  | .pbool b => .vbool b
  | .pint n => .vint n
  | .pstr s => .vstr s
  | .plist xs => .varr (xs.attach.map (fun x => parse_net_object R x.1))
  | .pdict fields =>
    match dictGet fields OSRF_JSON_CLASS_KEY, h2 : dictGet fields OSRF_JSON_PAYLOAD_KEY with
    | some (.pstr hint), some payload =>
      match getRegistry R hint with
      | some reg =>
        match reg.protocol with
        | .array =>
          match payload with
          | .plist xs =>
              .vcls hint (padZip reg.keys
                (xs.attach.map (fun x => parse_net_object R x.1)) .vnull)
          | .pdict [] =>
              -- len(payload) is 0, so every declared key maps to None
              .vcls hint (reg.keys.map (fun k => (k, .vnull)))
          | .pdict (_ :: _) =>
              -- integer subscript of a str-keyed dict raises KeyError unless
              -- the declared key list is empty and nothing is subscripted
              if reg.keys = [] then .vcls hint [] else .vobj []
          | .pstr s =>
              -- len() and integer subscript work on a str: the instance is
              -- built positionally from the one-character substrings
              .vcls hint (padZip reg.keys
                (s.toList.map (fun c => NetVal.vstr c.toString)) .vnull)
          | _ =>
              -- len() of a non-sized payload raises TypeError inside the loop
              if reg.keys = [] then .vcls hint [] else .vobj []
        | .hash =>
          match payload with
          | .pdict pfs =>
              .vcls hint
                ((fun parsed => reg.keys.map
                    (fun k => (k, (dictGet parsed k).getD .vnull)))
                  (pfs.attach.map (fun kv => (kv.1.1, parse_net_object R kv.1.2))))
          | _ =>
              -- `payload.get(key)` raises AttributeError at the first key
              if reg.keys = [] then .vcls hint [] else .vobj []
      | none => .vobj []
    | some (.plist _), some _ =>
        .vobj (fields.attach.map (fun kv => (kv.1.1, parse_net_object R kv.1.2)))
    | some (.pdict _), some _ =>
        .vobj (fields.attach.map (fun kv => (kv.1.1, parse_net_object R kv.1.2)))
    | some _, some _ => .vobj []
    | _, _ =>
        .vobj (fields.attach.map (fun kv => (kv.1.1, parse_net_object R kv.1.2)))
decreasing_by
  · exact sizeOf_lt_of_mem_pylist x.2
  · calc sizeOf x.1 < sizeOf (PyVal.plist xs) := sizeOf_lt_of_mem_pylist x.2
      _ < sizeOf (PyVal.pdict fields) := sizeOf_lt_of_dictGet h2
  · calc sizeOf kv.1.2 < sizeOf (PyVal.pdict pfs) := sizeOf_lt_of_mem_pyfields kv.2
      _ < sizeOf (PyVal.pdict fields) := sizeOf_lt_of_dictGet h2
  · exact sizeOf_lt_of_mem_pyfields kv.2
  · exact sizeOf_lt_of_mem_pyfields kv.2
  · exact sizeOf_lt_of_mem_pyfields kv.2

lemma sizeOf_lt_of_mem_varr {xs : List NetVal} {x : NetVal} (h : x ∈ xs) :
    sizeOf x < sizeOf (NetVal.varr xs) := by
  have := List.sizeOf_lt_of_mem h
  simp only [NetVal.varr.sizeOf_spec]
  omega

lemma sizeOf_lt_of_mem_vobj {fs : List (String × NetVal)} {kv : String × NetVal}
    (h : kv ∈ fs) : sizeOf kv.2 < 1 + sizeOf fs := by
  have h1 := List.sizeOf_lt_of_mem h
  obtain ⟨k, v⟩ := kv
  simp only [Prod.mk.sizeOf_spec] at h1
  show sizeOf v < 1 + sizeOf fs
  omega

/-- json.py `to_json` with the default simplejson path (lines 74-78), i.e.
`simplejson.dumps(obj, cls=NetworkEncoder)`, embedded at the level of the
JSON value tree (the `simplejson` string layer is the external library).
`NetworkEncoder.default` (lines 15-40) wraps a `NetworkObject` into
`{OSRF_JSON_CLASS_KEY: hint, OSRF_JSON_PAYLOAD_KEY: payload}` where for an
array-protocol class the payload lists `data.get(key)` positionally over the
declared keys, and for a hash-protocol class it is the `_data` dict itself;
simplejson then recurses into the payload.  A `NetworkObject` always has a
registry entry (its class is created by `register_hint`), so the lookup below
cannot miss on values produced by the runtime; the `.pnull` fallback keeps the
function total. -/
def to_json (R : Registry) : NetVal → PyVal
  | .vnull => .pnull
  | .vbool b => .pbool b
  | .vint n => .pint n
  | .vstr s => .pstr s
  | .varr xs => .plist (xs.attach.map (fun x => to_json R x.1))
  | .vobj fs => .pdict (fs.attach.map (fun kv => (kv.1.1, to_json R kv.1.2)))
  | .vcls hint data =>
    match getRegistry R hint with
    | some reg =>
      .pdict [(OSRF_JSON_CLASS_KEY, .pstr hint),
        (OSRF_JSON_PAYLOAD_KEY,
          (fun encoded =>
            match reg.protocol with
            | .array => .plist (reg.keys.map
                (fun k => (dictGet encoded k).getD .pnull))
            | .hash => .pdict encoded)
          (data.attach.map (fun kv => (kv.1.1, to_json R kv.1.2))))]
    | none => .pnull
decreasing_by
  · exact sizeOf_lt_of_mem_varr x.2
  · calc sizeOf kv.1.2 < 1 + sizeOf fs := sizeOf_lt_of_mem_vobj kv.2
      _ = sizeOf (NetVal.vobj fs) := by simp
  · calc sizeOf kv.1.2 < 1 + sizeOf data := sizeOf_lt_of_mem_vobj kv.2
      _ ≤ sizeOf (NetVal.vcls hint data) := by
        simp only [NetVal.vcls.sizeOf_spec]
        omega

@[simp] lemma parse_net_object_plist (R : Registry) (xs : List PyVal) :
    parse_net_object R (.plist xs) = .varr (xs.map (parse_net_object R)) := by
  rw [parse_net_object]
  congr 1
  exact List.attach_map_coe xs (parse_net_object R)

@[simp] lemma to_json_varr (R : Registry) (xs : List NetVal) :
    to_json R (.varr xs) = .plist (xs.map (to_json R)) := by
  rw [to_json]
  congr 1
  exact List.attach_map_coe xs (to_json R)

@[simp] lemma to_json_vobj (R : Registry) (fs : List (String × NetVal)) :
    to_json R (.vobj fs) = .pdict (fs.map (fun kv => (kv.1, to_json R kv.2))) := by
  rw [to_json]
  congr 1
  exact List.attach_map_coe fs (fun kv => (kv.1, to_json R kv.2))

lemma to_json_vcls {R : Registry} {hint : String} {reg : NetRegEntry}
    (h : getRegistry R hint = some reg) (data : List (String × NetVal)) :
    to_json R (.vcls hint data) =
      .pdict [(OSRF_JSON_CLASS_KEY, .pstr hint),
        (OSRF_JSON_PAYLOAD_KEY,
          match reg.protocol with
          | .array => .plist (reg.keys.map
              (fun k => (dictGet (data.map (fun kv => (kv.1, to_json R kv.2))) k).getD .pnull))
          | .hash => .pdict (data.map (fun kv => (kv.1, to_json R kv.2))))] := by
  rw [to_json, h]
  rw [List.attach_map_coe data (fun kv => (kv.1, to_json R kv.2))]

lemma dictGet_map_value [BEq κ] (fs : List (κ × α)) (g : α → β) (k : κ) :
    dictGet (fs.map (fun kv => (kv.1, g kv.2))) k = (dictGet fs k).map g := by
  induction fs with
  | nil => rfl
  | cons kv rest ih =>
      by_cases hk : kv.1 == k
      · simp [dictGet, List.find?, hk]
      · simpa [dictGet, List.find?, hk] using ih

lemma dictGet_of_mem_nodup [BEq κ] [LawfulBEq κ] {fs : List (κ × α)} {kv : κ × α}
    (hnd : (fs.map Prod.fst).Nodup) (hm : kv ∈ fs) : dictGet fs kv.1 = some kv.2 := by
  induction fs with
  | nil => cases hm
  | cons hd rest ih =>
      rcases List.mem_cons.mp hm with heq | hrest
      · subst heq
        simp [dictGet, List.find?]
      · have hne : hd.1 ≠ kv.1 := by
          intro hc
          have : kv.1 ∈ rest.map Prod.fst := List.mem_map_of_mem Prod.fst hrest
          rw [List.map_cons, List.nodup_cons] at hnd
          exact hnd.1 (hc ▸ this)
        have hb : (hd.1 == kv.1) = false := beq_eq_false_iff_ne.mpr hne
        have := ih (by rw [List.map_cons, List.nodup_cons] at hnd; exact hnd.2) hrest
        simpa [dictGet, List.find?, hb] using this

lemma padZip_map_self (keys : List String) (g : String → α) (pad : α) :
    padZip keys (keys.map g) pad = keys.map (fun k => (k, g k)) := by
  induction keys with
  | nil => rfl
  | cons k ks ih => simp [padZip, ih]

/-- The supported value universe over registry `R` (spec section 4.1): null,
bool, integer, string, array, object, and instances of registered classes
carrying fields exactly at their declared keys.  Plain objects may not carry
both magic wire keys at once (such a dict is indistinguishable from a class
wrapper on the wire), and registered key lists are duplicate-free, as all
registered classes of the runtime are. -/
inductive WF (R : Registry) : NetVal → Prop where
  | null : WF R .vnull
  | bool (b : Bool) : WF R (.vbool b)
  | int (n : Int) : WF R (.vint n)
  | str (s : String) : WF R (.vstr s)
  | arr (xs : List NetVal) : (∀ v ∈ xs, WF R v) → WF R (.varr xs)
  | obj (fields : List (String × NetVal)) :
      (dictGet fields OSRF_JSON_CLASS_KEY = none ∨
       dictGet fields OSRF_JSON_PAYLOAD_KEY = none) →
      (∀ kv ∈ fields, WF R kv.2) → WF R (.vobj fields)
  | cls (hint : String) (data : List (String × NetVal)) (reg : NetRegEntry) :
      getRegistry R hint = some reg →
      reg.keys.Nodup →
      data.map Prod.fst = reg.keys →
      (∀ kv ∈ data, WF R kv.2) → WF R (.vcls hint data)

lemma parse_pdict_nocls {R : Registry} {fields : List (String × PyVal)}
    (h : dictGet fields OSRF_JSON_CLASS_KEY = none ∨
         dictGet fields OSRF_JSON_PAYLOAD_KEY = none) :
    parse_net_object R (.pdict fields) =
      .vobj (fields.map (fun kv => (kv.1, parse_net_object R kv.2))) := by
  have hattach := List.attach_map_coe fields (fun kv => (kv.1, parse_net_object R kv.2))
  rw [parse_net_object]
  split <;> simp_all [hattach]

lemma parse_cls_hash {R : Registry} {hint : String} {reg : NetRegEntry}
    (h : getRegistry R hint = some reg) (hp : reg.protocol = .hash)
    (pfs : List (String × PyVal)) :
    parse_net_object R (.pdict [(OSRF_JSON_CLASS_KEY, .pstr hint),
        (OSRF_JSON_PAYLOAD_KEY, .pdict pfs)]) =
      .vcls hint (reg.keys.map (fun k =>
        (k, (dictGet (pfs.map (fun kv => (kv.1, parse_net_object R kv.2))) k).getD .vnull))) := by
  have hattach := List.attach_map_coe pfs (fun kv => (kv.1, parse_net_object R kv.2))
  rw [parse_net_object]
  simp [dictGet, List.find?, OSRF_JSON_CLASS_KEY, OSRF_JSON_PAYLOAD_KEY, h, hp, hattach]

lemma parse_cls_array {R : Registry} {hint : String} {reg : NetRegEntry}
    (h : getRegistry R hint = some reg) (hp : reg.protocol = .array)
    (xs : List PyVal) :
    parse_net_object R (.pdict [(OSRF_JSON_CLASS_KEY, .pstr hint),
        (OSRF_JSON_PAYLOAD_KEY, .plist xs)]) =
      .vcls hint (padZip reg.keys (xs.map (parse_net_object R)) .vnull) := by
  have hattach := List.attach_map_coe xs (parse_net_object R)
  rw [parse_net_object]
  simp [dictGet, List.find?, OSRF_JSON_CLASS_KEY, OSRF_JSON_PAYLOAD_KEY, h, hp, hattach]

lemma map_map_id (l : List α) (f : α → β) (g : β → α)
    (h : ∀ x ∈ l, g (f x) = x) : (l.map f).map g = l := by
  induction l with
  | nil => rfl
  | cons x xt ih =>
      simp only [List.map_cons]
      rw [h x (by simp), ih (fun y hy => h y (by simp [hy]))]

lemma map_fst_pointwise {κ : Type} {fs : List (κ × α)} (g : κ → α)
    (h : ∀ kv ∈ fs, g kv.1 = kv.2) :
    (fs.map Prod.fst).map (fun k => (k, g k)) = fs := by
  rw [List.map_map]
  have hcongr : ∀ kv ∈ fs, ((fun k => (k, g k)) ∘ Prod.fst) kv = id kv := by
    intro kv hkv
    show (kv.1, g kv.1) = kv
    rw [h kv hkv]
  rw [List.map_congr_left hcongr, List.map_id]

/-- C1 (amended): codec round-trip on the JSON surface.  For every value of
the supported universe (class instances carrying fields exactly at their
declared keys, objects not spoofing the two wire keys), decoding
(`to_object`, i.e. `parse_net_object` over the parsed tree) the encoding
(`to_json`) yields the value back structurally, class hints preserved.  The
XML surface does NOT round-trip (see the counterexample). -/
theorem C1_codec_roundtrip_json (R : Registry) (v : NetVal) (hwf : WF R v) :
    parse_net_object R (to_json R v) = v := by
  induction hwf with
  | null => simp [to_json, parse_net_object]
  | bool b => simp [to_json, parse_net_object]
  | int n => simp [to_json, parse_net_object]
  | str s => simp [to_json, parse_net_object]
  | arr xs hmem ih =>
      rw [to_json_varr, parse_net_object_plist]
      congr 1
      exact map_map_id xs _ _ ih
  | obj fields hkey hmem ih =>
      rw [to_json_vobj]
      rw [parse_pdict_nocls]
      · congr 1
        refine map_map_id fields _ _ (fun kv hkv => ?_)
        show (kv.1, parse_net_object R (to_json R kv.2)) = kv
        rw [ih kv hkv]
      · rcases hkey with h | h
        · left
          rw [dictGet_map_value, h]
          rfl
        · right
          rw [dictGet_map_value, h]
          rfl
  | cls hint data reg hreg hnd hkeys hmem ih =>
      rw [to_json_vcls hreg]
      cases hp : reg.protocol with
      | hash =>
          rw [parse_cls_hash hreg hp]
          have hinner : (data.map (fun kv => (kv.1, to_json R kv.2))).map
              (fun kv => (kv.1, parse_net_object R kv.2)) = data := by
            rw [List.map_map]
            have : ∀ kv ∈ data,
                ((fun kv => (kv.1, parse_net_object R kv.2)) ∘
                  (fun kv => (kv.1, to_json R kv.2))) kv = id kv := by
              intro kv hkv
              show (kv.1, parse_net_object R (to_json R kv.2)) = kv
              rw [ih kv hkv]
            rw [List.map_congr_left this, List.map_id]
          rw [hinner]
          congr 1
          rw [← hkeys]
          refine map_fst_pointwise _ (fun kv hkv => ?_)
          rw [dictGet_of_mem_nodup (hkeys ▸ hnd) hkv]
          rfl
      | array =>
          rw [parse_cls_array hreg hp]
          congr 1
          rw [List.map_map, padZip_map_self]
          rw [← hkeys]
          refine map_fst_pointwise _ (fun kv hkv => ?_)
          show parse_net_object R
            ((dictGet (data.map (fun kv => (kv.1, to_json R kv.2))) kv.1).getD .pnull) = kv.2
          rw [dictGet_map_value, dictGet_of_mem_nodup (hkeys ▸ hnd) hkv]
          exact ih kv hkv

/-- `saxutils.escape`: replaces the XML metacharacters in character data. -/
def escChar (c : Char) : List Char :=
  if c = '&' then "&amp;".toList
  else if c = '<' then "&lt;".toList
  else if c = '>' then "&gt;".toList
  else [c]

/-- `xml.sax.saxutils.escape`, used by net_obj.py `__to_xml` on all character
data and attribute payloads. -/
def saxutils_escape (s : String) : String :=
  String.mk (s.toList.flatMap escChar)

/-- net_obj.py `to_xml`/`__to_xml` (lines 182-250), the XML-surface encoder.

CPython `bool` is a subclass of `int`, so for `True`/`False` the
`isinstance(obj, int)` branch fires first and emits `<number>1</number>` /
`<number>0</number>`; the `isinstance(obj, bool)` branch at the bottom of
`__to_xml` is unreachable.  A `NetworkObject` always has a registry entry, so
the empty-string fallback below is unreachable on runtime values.  Encoding
of the field values of a class is hoisted before the per-key lookup (both are
pure, so the emitted string is unchanged). -/
def to_xml (R : Registry) : NetVal → String
  | .vnull => "<null/>"
  | .vstr s => "<string>" ++ saxutils_escape s ++ "</string>"
  | .vbool b => "<number>" ++ (if b then "1" else "0") ++ "</number>"
  | .vint n => "<number>" ++ toString n ++ "</number>"
  | .varr xs =>
      "<array>" ++ String.join (xs.attach.map (fun x => to_xml R x.1)) ++ "</array>"
  | .vobj fs =>
      "<object>" ++ String.join (fs.attach.map (fun kv =>
        "<element key='" ++ saxutils_escape kv.1.1 ++ "'>" ++
          to_xml R kv.1.2 ++ "</element>")) ++ "</object>"
  | .vcls hint data =>
    match getRegistry R hint with
    | some reg =>
      (fun encoded =>
        match reg.protocol with
        | .array =>
            "<array class_hint='" ++ saxutils_escape hint ++ "'>" ++
              String.join (reg.keys.map (fun k => (dictGet encoded k).getD "<null/>")) ++
              "</array>"
        | .hash =>
            "<object class_hint='" ++ saxutils_escape hint ++ "'>" ++
              String.join (encoded.map (fun kv =>
                "<element key='" ++ saxutils_escape kv.1 ++ "'>" ++ kv.2 ++
                  "</element>")) ++
              "</object>")
      (data.attach.map (fun kv => (kv.1.1, to_xml R kv.1.2)))
    | none => ""
decreasing_by
  · exact sizeOf_lt_of_mem_varr x.2
  · calc sizeOf kv.1.2 < 1 + sizeOf fs := sizeOf_lt_of_mem_vobj kv.2
      _ = sizeOf (NetVal.vobj fs) := by simp
  · calc sizeOf kv.1.2 < 1 + sizeOf data := sizeOf_lt_of_mem_vobj kv.2
      _ ≤ sizeOf (NetVal.vcls hint data) := by
        simp only [NetVal.vcls.sizeOf_spec]
        omega

/-- One SAX callback delivered by `xml.sax.make_parser` to the gateway.py
content handler: a start tag with its relevant attributes, character data,
or an end tag. -/
inductive XEv where
  | startEl (name : String) (classHint : Option String) (key : Option String)
      (value : Option String)
  | chars (text : String)
  | endEl (name : String)

/-- The SAX event stream that parsing `to_xml R v` produces: one start and one
end event per tag in document order, with a single `characters` call carrying
the (entity-unescaped, hence original) text of each non-empty `string` /
`number` element.  The XML string layer itself is the external `xml.sax`
library. -/
def sax_events (R : Registry) : NetVal → List XEv
  | .vnull => [.startEl "null" none none none, .endEl "null"]
  | .vstr s =>
      [XEv.startEl "string" none none none] ++
        (if s = "" then [] else [XEv.chars s]) ++ [XEv.endEl "string"]
  | .vbool b =>
      [.startEl "number" none none none, .chars (if b then "1" else "0"),
        .endEl "number"]
  | .vint n =>
      [.startEl "number" none none none, .chars (toString n), .endEl "number"]
  | .varr xs =>
      [XEv.startEl "array" none none none] ++
        (xs.attach.map (fun x => sax_events R x.1)).flatten ++ [XEv.endEl "array"]
  | .vobj fs =>
      [XEv.startEl "object" none none none] ++
        (fs.attach.map (fun kv =>
          [XEv.startEl "element" none (some kv.1.1) none] ++
            sax_events R kv.1.2 ++ [XEv.endEl "element"])).flatten ++
        [XEv.endEl "object"]
  | .vcls hint data =>
    match getRegistry R hint with
    | some reg =>
      (fun encoded =>
        match reg.protocol with
        | .array =>
            [XEv.startEl "array" (some hint) none none] ++
              (reg.keys.map (fun k =>
                (dictGet encoded k).getD
                  [XEv.startEl "null" none none none, XEv.endEl "null"])).flatten ++
              [XEv.endEl "array"]
        | .hash =>
            [XEv.startEl "object" (some hint) none none] ++
              (encoded.map (fun kv =>
                [XEv.startEl "element" none (some kv.1) none] ++ kv.2 ++
                  [XEv.endEl "element"])).flatten ++
              [XEv.endEl "object"])
      (data.attach.map (fun kv => (kv.1.1, sax_events R kv.1.2)))
    | none => []
decreasing_by
  · exact sizeOf_lt_of_mem_varr x.2
  · calc sizeOf kv.1.2 < 1 + sizeOf fs := sizeOf_lt_of_mem_vobj kv.2
      _ = sizeOf (NetVal.vobj fs) := by simp
  · calc sizeOf kv.1.2 < 1 + sizeOf data := sizeOf_lt_of_mem_vobj kv.2
      _ ≤ sizeOf (NetVal.vcls hint data) := by
        simp only [NetVal.vcls.sizeOf_spec]
        omega

/-- Hexadecimal digit test, as accepted by Python `int(x, 16)`. -/
def isHexChar (c : Char) : Bool :=
  c.isDigit || (97 ≤ c.toNat && c.toNat ≤ 102) || (65 ≤ c.toNat && c.toNat ≤ 70)

/-- Value of a hexadecimal digit. -/
def hexVal (c : Char) : Nat :=
  if c.isDigit then c.toNat - 48
  else if 65 ≤ c.toNat && c.toNat ≤ 70 then c.toNat - 55
  else c.toNat - 87

/-- Scanner core of `urllib.unquote_plus`: a plus becomes a space, a percent
followed by two hex digits becomes the coded byte, anything else is copied.
(int()-s tolerance for whitespace inside an escape, and a lone trailing
one-digit escape, are not modelled; no claim touches them.) -/
def unquoteChars : List Char → List Char
  | [] => []
  | '+' :: rest => ' ' :: unquoteChars rest
  | '%' :: a :: b :: rest =>
      if isHexChar a && isHexChar b then
        Char.ofNat (16 * hexVal a + hexVal b) :: unquoteChars rest
      else '%' :: unquoteChars (a :: b :: rest)
  | c :: rest => c :: unquoteChars rest

/-- `urllib.unquote_plus`, applied by gateway.py `XMLGatewayParser.characters`
to every piece of character data (line 209). -/
def unquote_plus (s : String) : String :=
  String.mk (unquoteChars s.toList)

/-- A container being filled on the gateway parser object stack: a plain
list, a plain dict, or a `NetworkObject` built by `new_object_from_hint`
(which falls back to the registered `__unknown` hash class when the hint is
unknown, net_obj.py lines 78-87 and 133). -/
inductive XBuilder where
  | barr (acc : List NetVal)
  | bobj (acc : List (String × NetVal))
  | bcls (reg : NetRegEntry) (hint : String) (acc : List (String × NetVal))

/-- Completed value of a container when its end tag closes it. -/
def XBuilder.finalize : XBuilder → NetVal
  | .barr acc => .varr acc
  | .bobj acc => .vobj acc
  | .bcls _ hint acc => .vcls hint acc

/-- gateway.py `XMLGatewayParser` state (lines 110-119): the result slot, the
object stack, the pending `element` keys, the positional indices for
array-protocol class instances, and the flag marking a `string`/`number`
element whose character data has not arrived yet.  A missing `key` attribute
(never emitted by `to_xml`) is modelled as the empty string. -/
structure XPState where
  result : Option NetVal
  objStack : List XBuilder
  keyStack : List String
  posStack : List Nat
  charsPending : Bool

/-- gateway.py `XMLGatewayParser.appendChild` (lines 175-201).  `none` models
an uncaught IndexError (a pop from an empty stack or a `keys[i]` overrun),
which aborts the SAX parse.  The source appends a container to its parent
when the container *starts* and then mutates it in place; on the balanced
event streams produced by `to_xml` this is equivalent to appending the
completed container at its end tag, which is how `runEvents` below calls
this function. -/
def appendChild (st : XPState) (child : NetVal) : Option XPState :=
  let res := match st.result with
    | none => some child
    | some r => some r
  match st.objStack with
  | [] => some { st with result := res }
  | parent :: rest =>
    match parent with
    | .barr acc =>
        some { st with result := res, objStack := .barr (acc ++ [child]) :: rest }
    | .bobj acc =>
        match st.keyStack with
        | [] => none
        | k :: ks =>
            some { st with
              result := res
              objStack := .bobj (dictSet acc k child) :: rest
              keyStack := ks }
    | .bcls reg hint acc =>
        match reg.protocol with
        | .array =>
            match st.posStack with
            | [] => none
            | i :: ps =>
                match reg.keys.get? i with
                | none => none
                | some key =>
                    some { st with
                      result := res
                      objStack := .bcls reg hint (dictSet acc key child) :: rest
                      posStack :=
                        if i + 1 < reg.keys.length then (i + 1) :: ps else ps }
        | .hash =>
            match st.keyStack with
            | [] => none
            | k :: ks =>
                some { st with
                  result := res
                  objStack := .bcls reg hint (dictSet acc k child) :: rest
                  keyStack := ks }

/-- gateway.py `XMLGatewayParser.startElement` (lines 130-172).  Note that the
pending-characters check at the top appends a null WITHOUT clearing the flag
(the flag is only cleared by a `characters` event). -/
def saxStart (R : Registry) (st : XPState) (name : String)
    (classHint key value : Option String) : Option XPState :=
  (if st.charsPending then appendChild st .vnull else some st).bind (fun st =>
    if name = "null" then appendChild st .vnull
    else if name = "string" || name = "number" then
      some { st with charsPending := true }
    else if name = "element" then
      some { st with keyStack := key.getD "" :: st.keyStack }
    else
      match classHint with
      | some hint =>
          let b : XBuilder :=
            match getRegistry R hint with
            | some reg => .bcls reg hint []
            | none => .bcls ⟨"__unknown", [], .hash⟩ "__unknown" []
          some { st with
            objStack := b :: st.objStack
            posStack := if name = "array" then 0 :: st.posStack else st.posStack }
      | none =>
          if name = "array" then
            some { st with objStack := XBuilder.barr [] :: st.objStack }
          else if name = "object" then
            some { st with objStack := XBuilder.bobj [] :: st.objStack }
          else if name = "boolean" then
            appendChild st (.vbool (value == some "true"))
          else some st)

/-- gateway.py `XMLGatewayParser.characters` (lines 207-209): clears the
pending flag and appends the URL-unquoted text -- also for `number`
elements, which therefore decode as STRINGS. -/
def saxChars (st : XPState) (text : String) : Option XPState :=
  appendChild { st with charsPending := false } (.vstr (unquote_plus text))

/-- gateway.py `XMLGatewayParser.endElement` (lines 203-205): pops the object
stack on `array`/`object`; with the completion-time append convention the
popped container is finalized and handed to its parent here. -/
def saxEnd (st : XPState) (name : String) : Option XPState :=
  if name = "array" || name = "object" then
    match st.objStack with
    | [] => none
    | b :: rest => appendChild { st with objStack := rest } b.finalize
  else some st

/-- Runs the gateway content handler over a SAX event stream. -/
def runEvents (R : Registry) (evs : List XEv) (st : XPState) : Option XPState :=
  match evs with
  | [] => some st
  | ev :: rest =>
      (match ev with
        | .startEl name classHint key value => saxStart R st name classHint key value
        | .chars text => saxChars st text
        | .endEl name => saxEnd st name).bind (runEvents R rest)

/-- gateway.py `XMLGatewayRequest.handleResponse` (lines 95-105) composed with
the encoder: parse the XML serialization of `v` with an `XMLGatewayParser`
and return `getResult()`; `none` is a parse error (handled as a None reply). -/
def xml_round_trip (R : Registry) (v : NetVal) : Option (Option NetVal) :=
  (runEvents R (sax_events R v) ⟨none, [], [], [], false⟩).map (fun st => st.result)

/-- The class registry as populated by importing the runtime: net_obj.py
line 133 registers `__unknown` and ses.py lines 32-36 register the five
protocol classes, all hash-protocol. -/
def ses_registry : Registry :=
  [⟨"__unknown", [], .hash⟩,
   ⟨"osrfMessage", ["threadTrace", "locale", "type", "payload"], .hash⟩,
   ⟨"osrfMethod", ["method", "params"], .hash⟩,
   ⟨"osrfResult", ["status", "statusCode", "content"], .hash⟩,
   ⟨"osrfConnectStatus", ["status", "statusCode"], .hash⟩,
   ⟨"osrfMethodException", ["status", "statusCode"], .hash⟩]

/-- C1 counterexample: the round-trip law fails on the XML surface.  The
integer 3 encodes to `<number>3</number>` whose gateway decoding is the
STRING "3" (`XMLGatewayParser.characters` URL-unquotes the text and appends
it as-is, with no numeric conversion). -/
theorem C1_counterexample :
    xml_round_trip ses_registry (.vint 3) = some (some (.vstr "3")) ∧
      NetVal.vstr "3" ≠ NetVal.vint 3 := by
  constructor
  · rw [xml_round_trip, sax_events]
    rfl
  · intro h
    exact NetVal.noConfusion h

/-- The nested request value used as the C1 witness input: an `osrfMessage`
carrying an `osrfMethod` whose params exercise every other shape of the
universe. -/
def witness_msg : NetVal :=
  .vcls "osrfMessage"
    [("threadTrace", .vint 1),
     ("locale", .vstr "en-US"),
     ("type", .vstr "REQUEST"),
     ("payload", .vcls "osrfMethod"
        [("method", .vstr "opensrf.system.echo"),
         ("params", .varr [.vstr "a+b", .vint 42, .vnull, .vbool true,
            .vobj [("k", .vstr "v")]])])]

lemma witness_msg_wf : WF ses_registry witness_msg := by
  have hobj : WF ses_registry (.vobj [("k", .vstr "v")]) := by
    refine WF.obj _ (Or.inl rfl) ?_
    intro kv hkv
    fin_cases hkv
    exact WF.str "v"
  have harr : WF ses_registry
      (.varr [.vstr "a+b", .vint 42, .vnull, .vbool true,
        .vobj [("k", .vstr "v")]]) := by
    refine WF.arr _ ?_
    intro v hv
    fin_cases hv
    · exact WF.str "a+b"
    · exact WF.int 42
    · exact WF.null
    · exact WF.bool true
    · exact hobj
  have hmethod : WF ses_registry (.vcls "osrfMethod"
      [("method", .vstr "opensrf.system.echo"),
       ("params", .varr [.vstr "a+b", .vint 42, .vnull, .vbool true,
          .vobj [("k", .vstr "v")]])]) := by
    refine WF.cls _ _ ⟨"osrfMethod", ["method", "params"], .hash⟩ rfl (by decide)
      rfl ?_
    intro kv hkv
    fin_cases hkv
    · exact WF.str "opensrf.system.echo"
    · exact harr
  refine WF.cls _ _ ⟨"osrfMessage", ["threadTrace", "locale", "type", "payload"],
    .hash⟩ rfl (by decide) rfl ?_
  intro kv hkv
  fin_cases hkv
  · exact WF.int 1
  · exact WF.str "en-US"
  · exact WF.str "REQUEST"
  · exact hmethod

/-- C1 witness: the JSON round-trip theorem applied to a concrete nested
`osrfMessage` request over the runtime registry. -/
theorem C1_codec_roundtrip_json_witness :
    WF ses_registry witness_msg ∧
      parse_net_object ses_registry (to_json ses_registry witness_msg) =
        witness_msg :=
  ⟨witness_msg_wf,
    C1_codec_roundtrip_json ses_registry witness_msg witness_msg_wf⟩

/-- C6: net_obj.py `parse_net_object` on a wire object whose hint is NOT in
the registry.  `NetworkRegistry.get_registry` returns None, `obj` is rebound
to the empty dict (line 145), and `reg.protocol` (line 147) raises
AttributeError which the bare `except` swallows; the generic walk then
returns the empty dict.  Every field of the payload is discarded, contrary
to the spec and to the intent of the fallback at lines 161-162 ("this object
has not been registered, shove it into the default container"), which is
unreachable for unknown hints. -/
theorem C6_unknown_hint_loses_fields :
    parse_net_object ses_registry
      (.pdict [(OSRF_JSON_CLASS_KEY, .pstr "zzz"),
        (OSRF_JSON_PAYLOAD_KEY, .pdict [("a", .pint 1)])]) = .vobj [] := by
  rw [parse_net_object]
  rfl

/-- server.py line 27: width of the pid/size leader on the status socket. -/
def SIZE_PAD : Nat := 12

/-- Python `str.rjust(width)`: left-pad with spaces up to `width`. -/
def pyRjust (width : Nat) (s : String) : String :=
  String.mk (List.replicate (width - s.length) ' ') ++ s

/-- server.py `Controller.write_child` (lines 140-151): the bytes put on the
child data socket are exactly `data` (`child.write_data.sendall(data)`), the
XML serialization of the inbound NetworkMessage.  No length header is
prepended in this revision. -/
def write_child_bytes (data : String) : String := data

/-- server.py `Child.run` (lines 330-353): the worker reads its request by
draining the data socket -- a first blocking `recv(2048)`, then non-blocking
reads until EAGAIN -- and concatenates the chunks.  It never reads a
fixed-width length header. -/
def child_read_bytes (chunks : List String) : String := String.join chunks

/-- server.py `Child.send_status` (lines 407-413): the worker reports
availability by writing its pid right-justified in SIZE_PAD bytes on the
status socket (`str(self.pid).rjust(SIZE_PAD)`). -/
def send_status_bytes (pid : Nat) : String := pyRjust SIZE_PAD (toString pid)

/-- The framing the claim describes (stated from the spec, for comparison):
the decimal byte length right-justified in SIZE_PAD ASCII characters,
followed by the raw body. -/
def claimed_frame (data : String) : String :=
  pyRjust SIZE_PAD (toString data.length) ++ data

lemma pyRjust_length (width : Nat) (s : String) :
    (pyRjust width s).length = max width s.length := by
  simp [pyRjust, String.length_append]
  omega

/-- C2 counterexample: the controller does not length-prefix the frame.  For
the one-byte body "x" the claim prescribes a 13-byte frame, but
`write_child` sends exactly the 1-byte body. -/
theorem C2_counterexample :
    write_child_bytes "x" ≠ claimed_frame "x" := by
  decide

/-- C2 (amended): controller-to-worker data frames carry the raw XML bytes
with no length header, and the worker reconstructs the body by draining the
socket; the SIZE_PAD=12 right-justified convention is used on the STATUS
socket, where each worker writes its pid padded to exactly SIZE_PAD bytes
(for any pid of at most 12 digits). -/
theorem C2_frames_raw_and_status_padded (data : String) (pid : Nat) :
    write_child_bytes data = data ∧
      child_read_bytes [write_child_bytes data] = data ∧
      (send_status_bytes pid).length = max SIZE_PAD (toString pid).length := by
  refine ⟨rfl, ?_, pyRjust_length SIZE_PAD (toString pid)⟩
  simp [child_read_bytes, write_child_bytes, String.join]

/-- Modelled from the spec (section 3): const.py is not under src/.  The
protocol status codes used by the message layer. -/
def OSRF_STATUS_CONTINUE : Int := 100

/-- Modelled from the spec: STATUS 200 OK. -/
def OSRF_STATUS_OK : Int := 200

/-- Modelled from the spec: STATUS 205 COMPLETE. -/
def OSRF_STATUS_COMPLETE : Int := 205

/-- Modelled from the spec: STATUS 404 NOT_FOUND. -/
def OSRF_STATUS_NOTFOUND : Int := 404

/-- Modelled from the spec: STATUS 408 TIMEOUT. -/
def OSRF_STATUS_TIMEOUT : Int := 408

/-- Modelled from the spec: STATUS 500 INTERNAL. -/
def OSRF_STATUS_INTERNALSERVERERROR : Int := 500

/-- Session connection states (const.py `OSRF_APP_SESSION_*`; the code only
compares them symbolically). -/
inductive SessionState where
  | disconnected
  | connecting
  | connected
  deriving DecidableEq, Repr

/-- Python exceptions that can escape the embedded fragments. -/
inductive PyError where
  | nameError (name : String)
  | typeError
  | serviceException
  | protocolException
  deriving DecidableEq, Repr

/-- One client request record as mutated by the message layer
(ses.py `Request`: the response queue, the completion flag and the
timeout-reset flag). -/
structure RequestState where
  queue : List NetVal
  complete : Bool
  reset_timeout : Bool

/-- The part of a ses.py `ClientSession` touched by stack.py
`handle_client`: the connection state and the `requests` dict, keyed by
`str(rid)` (embedded with the rid itself as key). -/
structure ClientSessionSt where
  state : SessionState
  requests : List (Nat × RequestState)

/-- ses.py `ClientSession.find_request` (lines 199-205): dict lookup,
returning None (and logging) on a missing threadTrace. -/
def find_request (s : ClientSessionSt) (rid : Nat) : Option RequestState :=
  dictGet s.requests rid

/-- An inbound osrfMessage as dispatched to `handle_client`: its type,
threadTrace and the payload parts each branch reads. -/
inductive ClientMsg where
  | result (threadTrace : Nat) (payload : NetVal)
  | status (threadTrace : Nat) (statusCode : Int)
  | otherType

/-- stack.py `handle_client` (lines 52-97), acting on the session.

RESULT: `push_response_queue` appends the payload to the matching request
queue; for an unknown threadTrace, `find_request` returns None and
`None.push_response(...)` raises AttributeError, swallowed and logged by the
bare `except` of lines 194-197, leaving everything unchanged.

STATUS 205: mark the matching request complete; silently ignored when the
threadTrace matches nothing.  STATUS 100: set the matching request's
`reset_timeout` (`ClientSession.reset_request_timeout`, ses.py 110-113),
ignored when unknown.  STATUS 200 is SUPPOSED to set the state to CONNECTED,
but stack.py line 76 assigns the bare name `OSRF_APP_SESSION_CONNECTED`,
which is unbound in stack.py (the module only does `import osrf.const`), so
the handler raises NameError before touching the state; likewise the
disconnect assignments for STATUS 408 (line 86) and STATUS 404 (line 91).
STATUS 500 raises OSRFServiceException; any other code raises
OSRFProtocolException.  Message types other than RESULT/STATUS fall through
with no effect. -/
def handle_client (s : ClientSessionSt) (m : ClientMsg) : Except PyError ClientSessionSt :=
  match m with
  | .result tt payload =>
      match find_request s tt with
      | some req =>
          .ok ⟨s.state, dictSet s.requests tt { req with queue := req.queue ++ [payload] }⟩
      | none => .ok s
  | .status tt code =>
      if code = OSRF_STATUS_COMPLETE then
        match find_request s tt with
        | some req =>
            .ok ⟨s.state, dictSet s.requests tt { req with complete := true }⟩
        | none => .ok s
      else if code = OSRF_STATUS_OK then
        .error (.nameError "OSRF_APP_SESSION_CONNECTED")
      else if code = OSRF_STATUS_CONTINUE then
        match find_request s tt with
        | some req =>
            .ok ⟨s.state, dictSet s.requests tt { req with reset_timeout := true }⟩
        | none => .ok s
      else if code = OSRF_STATUS_TIMEOUT then
        .error (.nameError "OSRF_APP_SESSION_DISCONNECTED")
      else if code = OSRF_STATUS_NOTFOUND then
        .error (.nameError "OSRF_APP_SESSION_DISCONNECTED")
      else if code = OSRF_STATUS_INTERNALSERVERERROR then
        .error .serviceException
      else .error .protocolException
  | .otherType => .ok s

/-- C3: handling STATUS 200 OK raises NameError instead of marking the
session CONNECTED.  stack.py line 76 reads the bare name
`OSRF_APP_SESSION_CONNECTED`, which is not defined in the module namespace
(stack.py imports `osrf.const` but never the name itself; every other
reference in the file is qualified), so for EVERY session state the 200
branch raises and the state is never set; a `connect(timeout)` call can
therefore never observe state=CONNECTED through this path. -/
theorem C3_status_ok_raises_nameerror (s : ClientSessionSt) (tt : Nat) :
    handle_client s (.status tt OSRF_STATUS_OK) =
      .error (.nameError "OSRF_APP_SESSION_CONNECTED") := rfl

/-- C10: an inbound RESULT, or STATUS 205 COMPLETE, whose threadTrace matches
no request in the session map is ignored: no exception propagates and the
session (state and every other request record) is returned unchanged. -/
theorem C10_unmatched_reply_ignored (s : ClientSessionSt) (tt : Nat)
    (payload : NetVal) (h : find_request s tt = none) :
    handle_client s (.result tt payload) = .ok s ∧
      handle_client s (.status tt OSRF_STATUS_COMPLETE) = .ok s := by
  constructor
  · simp [handle_client, h]
  · simp [handle_client, h, OSRF_STATUS_COMPLETE]

/-- C10 witness: a session holding request 1 receives replies for the
unknown threadTrace 7 and is untouched. -/
theorem C10_unmatched_reply_ignored_witness :
    find_request ⟨.connected, [(1, ⟨[], false, false⟩)]⟩ 7 = none ∧
      handle_client ⟨.connected, [(1, ⟨[], false, false⟩)]⟩ (.result 7 (.vstr "r")) =
        .ok ⟨.connected, [(1, ⟨[], false, false⟩)]⟩ ∧
      handle_client ⟨.connected, [(1, ⟨[], false, false⟩)]⟩
          (.status 7 OSRF_STATUS_COMPLETE) =
        .ok ⟨.connected, [(1, ⟨[], false, false⟩)]⟩ := by
  have h : find_request ⟨.connected, [(1, ⟨[], false, false⟩)]⟩ 7 = none := rfl
  have hmain := C10_unmatched_reply_ignored ⟨.connected, [(1, ⟨[], false, false⟩)]⟩ 7
    (.vstr "r") h
  exact ⟨h, hmain.1, hmain.2⟩

/-- ses.py `Session.wait` (lines 55-59): calls `handle.recv(timeout)` but has
NO return statement, so the caller always receives None, whether or not a
message arrived before the timeout. -/
def session_wait_result : Option Unit := none

/-- Python percent-format with a `%d` conversion applied to one value:
numbers format; a string argument raises
`TypeError: %d format: a number is required, not str`.  (bool is an int
subclass and formats as 1/0.) -/
def formatD : NetVal → Except PyError String
  | .vint n => .ok (toString n)
  | .vbool b => .ok (if b then "1" else "0")
  | _ => .error .typeError

/-- Outcome of one pass of the worker keepalive loop body. -/
inductive KeepaliveOutcome where
  | exitLoop
  | sent408 (thread : String)
  | nextIteration
  | raised (e : PyError)
  deriving DecidableEq, Repr

/-- server.py `Child.keepalive_loop` (lines 377-405), one iteration of the
`while session.state == CONNECTED` body, taking the session state as left by
the message processing inside `session.wait(keepalive)`.

`status = session.wait(keepalive)` is always None (`Session.wait` has no
return statement).  If the wait left the session DISCONNECTED the loop
breaks quietly.  Otherwise the `status is None` branch is taken
unconditionally, and its first statement formats the log line
`"server: no request was received in %d seconds from %s" %
(session.remote_id, int(keepalive))` with the arguments SWAPPED: `%d` is
applied to the string `remote_id`, raising TypeError before
`session.send_status(...)` can emit the STATUS 408 (a method that, moreover,
does not exist on ses.py sessions in this revision). -/
def keepalive_iteration (stateAfterWait : SessionState) (remote_id : NetVal)
    (thread : String) : KeepaliveOutcome :=
  if stateAfterWait = .disconnected then .exitLoop
  else
    match session_wait_result with
    | none =>
        match formatD remote_id with
        | .error e => .raised e
        | .ok _ => .sent408 thread
    | some _ => .nextIteration

/-- C4: the keepalive loop never sends its STATUS 408.  For every CONNECTED
session whose `remote_id` is a JID string, the iteration raises TypeError
(swapped log-format arguments), and because `Session.wait` returns None even
when a request DID arrive in time, this branch is also taken for sessions
that were active within the keepalive window. -/
theorem C4_keepalive_raises_typeerror (jid : String) (thread : String) :
    keepalive_iteration .connected (.vstr jid) thread = .raised .typeError := rfl

lemma dictGet_dictSet_self [BEq κ] [LawfulBEq κ] [DecidableEq κ]
    (fs : List (κ × α)) (k : κ) (v : α) :
    dictGet (dictSet fs k v) k = some v := by
  induction fs with
  | nil => simp [dictGet, dictSet, List.find?]
  | cons kv rest ih =>
      by_cases hk : kv.1 = k
      · simp [dictSet, hk, dictGet, List.find?]
      · have hb : (kv.1 == k) = false := beq_eq_false_iff_ne.mpr hk
        simpa [dictSet, hk, dictGet, List.find?, hb] using ih

/-- One entry of app.py `Application.methods` (the `Method` object,
lines 25-39): api name, the handler attribute name, the streaming flag,
the declared argument count and the atomic flag. -/
structure MethodEntry where
  name : String
  handler : String
  stream : Bool
  argc : Nat
  atomic : Bool
  deriving DecidableEq, Repr

/-- app.py `Application.register_method` (lines 91-97): stores the method
under its api name; when `stream` is truthy it mutates the kwargs --
`atomic = 1`, `api_name += ".atomic"` -- and stores a second `Method` built
from them, so the twin keeps the handler, argc and stream flag and carries
`atomic` true. -/
def register_method (methods : List (String × MethodEntry))
    (api_name handler : String) (argc : Nat) (stream atomic : Bool) :
    List (String × MethodEntry) :=
  let m1 := dictSet methods api_name ⟨api_name, handler, stream, argc, atomic⟩
  if stream then
    dictSet m1 (api_name ++ ".atomic")
      ⟨api_name ++ ".atomic", handler, stream, argc, true⟩
  else m1

/-- A message emitted by a server request toward the client: one RESULT or
one STATUS. -/
inductive SrvMsg where
  | result (content : NetVal)
  | status (code : Int)

/-- Modelled from the spec: `ServerRequest` is referenced by app.py
`handle_request` (line 119, `osrf.ses.ServerRequest`) but absent from
src/osrf/ses.py in this revision.  Spec sections 4.3-4.4: `respond(value)`
sends one RESULT with code 200; for atomic streaming calls the server
buffers all `respond` outputs and emits them as a single-array RESULT
followed by COMPLETE, while for non-atomic streaming calls each `respond` is
its own RESULT, with STATUS 205 COMPLETE closing the request either way.
`streamed` is the sequence of values the handler passes to `respond`, in
handler order. -/
def server_dispatch (m : MethodEntry) (streamed : List NetVal) : List SrvMsg :=
  if m.atomic then
    [.result (.varr streamed), .status OSRF_STATUS_COMPLETE]
  else
    streamed.map SrvMsg.result ++ [.status OSRF_STATUS_COMPLETE]

/-- C5: registering a method with stream=true also registers the twin
`<api_name>.atomic` with atomic=true, and a call dispatched to that twin
yields exactly one RESULT whose content is the array of the streamed values
in handler order, followed by STATUS 205 COMPLETE. -/
theorem C5_atomic_streaming (methods : List (String × MethodEntry))
    (api_name handler : String) (argc : Nat) (streamed : List NetVal) :
    dictGet (register_method methods api_name handler argc true false)
        (api_name ++ ".atomic") =
      some ⟨api_name ++ ".atomic", handler, true, argc, true⟩ ∧
    server_dispatch ⟨api_name ++ ".atomic", handler, true, argc, true⟩ streamed =
      [.result (.varr streamed), .status OSRF_STATUS_COMPLETE] := by
  constructor
  · rw [register_method]
    simp only [if_pos]
    exact dictGet_dictSet_self _ _ _
  · rfl

/-- The accounting state of the server.py `Controller`: the child counter,
the two membership lists and the pid map (children are identified here by
their pid; `pid_map` is its key set since the mapped `Child` objects are
the list members themselves). -/
structure ControllerSt where
  num_children : Nat
  active_list : List Nat
  idle_list : List Nat
  pid_map : List Nat
  min_children : Nat
  deriving DecidableEq, Repr

/-- server.py `Controller.cleanup_child` (lines 219-236).  The child is
looked up in `pid_map` and removed from `active_list` when present there.
The FALLBACK for an idle child is `self.idle_list.pop(self.active_list.index(...))`
(line 232): the index is searched in the ACTIVE list, which raises
ValueError, swallowed by the bare `except: pass` -- the child is never
removed from the idle list.  Either way the pid leaves `pid_map`.  `none`
models the uncaught KeyError of `del self.pid_map[pid]` for a pid that was
never in the map. -/
def cleanup_child (st : ControllerSt) (pid : Nat) : Option ControllerSt :=
  if pid ∈ st.pid_map then
    if pid ∈ st.active_list then
      some { st with
        active_list := st.active_list.erase pid
        pid_map := st.pid_map.erase pid }
    else
      some { st with pid_map := st.pid_map.erase pid }
  else none

/-- server.py `Controller.spawn_child` (lines 245-267), parent side: count
the child, record it in `pid_map` and append it to the idle or active list. -/
def spawn_child (st : ControllerSt) (pid : Nat) (active : Bool) : ControllerSt :=
  { st with
    num_children := st.num_children + 1
    pid_map := st.pid_map ++ [pid]
    active_list := if active then st.active_list ++ [pid] else st.active_list
    idle_list := if active then st.idle_list else st.idle_list ++ [pid] }

/-- server.py `Controller.spawn_children` (lines 240-243): spawn idle
children while below `min_children`; `fresh` supplies the pids fork would
return. -/
def spawn_children (st : ControllerSt) : List Nat → ControllerSt
  | [] => st
  | p :: ps =>
      if st.num_children < st.min_children then
        spawn_children (spawn_child st p false) ps
      else st

/-- server.py `Controller.reap_children` (lines 197-217) in the main loop
(`done=False`): for each child reaped by `waitpid` the counter is
decremented and `cleanup_child` runs.  When the dead children are exhausted,
the next `waitpid` call either reports pid 0 -- live children remain -- and
`spawn_children` tops the pool back up toward `min_children`, or raises
OSError (ECHILD) because the reaped children were the whole pool, and the
`except OSError: return` at line 216 returns WITHOUT respawning.
`num_children` counts the live children (incremented per fork, decremented
per reap), so the pool is empty exactly when it reaches 0. -/
def reap_children (st : ControllerSt) (dead : List Nat) (fresh : List Nat) :
    Option ControllerSt :=
  match dead with
  | [] =>
      if st.num_children = 0 then some st
      else some (spawn_children st fresh)
  | p :: ps =>
      (cleanup_child { st with num_children := st.num_children - 1 } p).bind
        (fun st2 => reap_children st2 ps fresh)

/-- The worker-accounting invariant as the claim states it: the two lists
partition the child population, their sizes sum to `num_children`, and
`pid_map` holds exactly the pids on the lists. -/
def accounting_ok (st : ControllerSt) : Prop :=
  st.idle_list.length + st.active_list.length = st.num_children ∧
  (∀ p ∈ st.idle_list, p ∉ st.active_list) ∧
  (∀ p ∈ st.pid_map, p ∈ st.idle_list ∨ p ∈ st.active_list) ∧
  (∀ p ∈ st.idle_list ++ st.active_list, p ∈ st.pid_map)

instance (st : ControllerSt) : Decidable (accounting_ok st) := by
  unfold accounting_ok
  infer_instance

/-- C7: the accounting invariant is BROKEN at the quiescent point after
`reap_children` whenever a child dies while on the idle list, because
`cleanup_child` fails to remove it from `idle_list` (it searches the index
in `active_list` and the ValueError is swallowed).  Two concrete runs:

(1) a pool whose ONLY child (pid 101, idle, `min_children = 1`) dies: after
reaping it the next `waitpid` raises OSError (ECHILD), so no respawn
happens, and the post-state has `num_children = 0` yet `|idle| = 1`, with
the stale pid 101 on the idle list and absent from `pid_map`;

(2) a two-child pool (active 102, idle 101, `min_children = 2`) whose idle
child 101 dies: live children remain, so `spawn_children` respawns pid 103,
and the post-state has `|idle| + |active| = 3` while `num_children = 2`,
again with the stale 101 on the idle list and out of `pid_map` -- available
to be dispatched to even though the process is dead. -/
theorem C7_idle_reap_breaks_accounting :
    (accounting_ok ⟨1, [], [101], [101], 1⟩ ∧
      reap_children ⟨1, [], [101], [101], 1⟩ [101] [102] =
        some ⟨0, [], [101], [], 1⟩ ∧
      ¬ accounting_ok ⟨0, [], [101], [], 1⟩) ∧
    (accounting_ok ⟨2, [102], [101], [101, 102], 2⟩ ∧
      reap_children ⟨2, [102], [101], [101, 102], 2⟩ [101] [103] =
        some ⟨2, [102], [101, 103], [102, 103], 2⟩ ∧
      ¬ accounting_ok ⟨2, [102], [101, 103], [102, 103], 2⟩) := by
  refine ⟨⟨by decide, ?_, by decide⟩, ⟨by decide, ?_, by decide⟩⟩
  · rfl
  · rfl

/-- What one `self.session.wait(timeout)` call inside `Request.recv` did to
this request: how much wall time it consumed, which RESULT payloads the
message layer pushed onto the queue, and whether a STATUS 205 / STATUS 100
for this request marked it complete / set its `reset_timeout` flag. -/
structure WaitEv where
  elapsed : ℚ
  pushes : List NetVal
  setsComplete : Bool
  setsReset : Bool

/-- The loop state of ses.py `Request.recv` (lines 259-298): the remaining
budget, the request record, and a ghost counter of how many times the budget
was restored to the original timeout (for stating the exactly-once
property; it has no counterpart in the code). -/
structure RecvSt where
  timeout : ℚ
  queue : List NetVal
  complete : Bool
  reset_timeout : Bool
  restores : Nat

/-- ses.py `Request.recv` main loop (lines 267-274):

    while not self.complete and timeout >= 0 and len(self.queue) == 0:
        s = time.time()
        self.session.wait(timeout)
        timeout -= time.time() - s
        if self.reset_timeout:
            self.reset_timeout = False
            timeout = orig_timeout

Each list element is one wait call; the loop stops when the guard fails (any
remaining events are the waits that never happen). -/
def recv_loop (orig : ℚ) (st : RecvSt) : List WaitEv → RecvSt
  | [] => st
  | ev :: rest =>
      if st.complete = false ∧ 0 ≤ st.timeout ∧ st.queue.isEmpty = true then
        let st1 : RecvSt :=
          { st with
            queue := st.queue ++ ev.pushes
            complete := st.complete || ev.setsComplete
            reset_timeout := st.reset_timeout || ev.setsReset }
        let st2 : RecvSt := { st1 with timeout := st1.timeout - ev.elapsed }
        let st3 : RecvSt :=
          if st2.reset_timeout then
            { st2 with
              reset_timeout := false
              timeout := orig
              restores := st2.restores + 1 }
          else st2
        recv_loop orig st3 rest
      else st

lemma recv_loop_cons_guard (orig : ℚ) (ev : WaitEv) (rest : List WaitEv)
    (st : RecvSt)
    (hg : st.complete = false ∧ 0 ≤ st.timeout ∧ st.queue.isEmpty = true) :
    recv_loop orig st (ev :: rest) =
      recv_loop orig
        (if st.reset_timeout || ev.setsReset then
          ⟨orig, st.queue ++ ev.pushes, st.complete || ev.setsComplete, false,
            st.restores + 1⟩
        else
          ⟨st.timeout - ev.elapsed, st.queue ++ ev.pushes,
            st.complete || ev.setsComplete, st.reset_timeout || ev.setsReset,
            st.restores⟩) rest := by
  rw [recv_loop, if_pos hg]

lemma recv_loop_stop (orig : ℚ) (evs : List WaitEv) (st : RecvSt)
    (hg : ¬(st.complete = false ∧ 0 ≤ st.timeout ∧ st.queue.isEmpty = true)) :
    recv_loop orig st evs = st := by
  cases evs with
  | nil => rfl
  | cons ev rest => rw [recv_loop, if_neg hg]

lemma recv_loop_append (orig : ℚ) (st : RecvSt) (a b : List WaitEv) :
    recv_loop orig st (a ++ b) = recv_loop orig (recv_loop orig st a) b := by
  induction a generalizing st with
  | nil => rfl
  | cons ev rest ih =>
      by_cases hg : st.complete = false ∧ 0 ≤ st.timeout ∧ st.queue.isEmpty = true
      · rw [List.cons_append, recv_loop_cons_guard orig ev (rest ++ b) st hg,
          recv_loop_cons_guard orig ev rest st hg, ih]
      · rw [List.cons_append, recv_loop_stop orig _ st hg,
          recv_loop_stop orig _ st hg, recv_loop_stop orig _ st hg]

lemma recv_loop_no_reset (orig : ℚ) (evs : List WaitEv) (st : RecvSt)
    (hevs : ∀ ev ∈ evs, ev.setsReset = false) (hst : st.reset_timeout = false) :
    (recv_loop orig st evs).restores = st.restores ∧
      (recv_loop orig st evs).reset_timeout = false := by
  induction evs generalizing st with
  | nil => exact ⟨rfl, hst⟩
  | cons ev rest ih =>
      by_cases hg : st.complete = false ∧ 0 ≤ st.timeout ∧ st.queue.isEmpty = true
      · have hev : ev.setsReset = false := hevs ev (by simp)
        rw [recv_loop_cons_guard orig ev rest st hg]
        rw [hst, hev]
        simp only [Bool.or_self, if_neg Bool.false_ne_true]
        exact ih _ (fun e he => hevs e (List.mem_cons_of_mem _ he)) rfl
      · rw [recv_loop_stop orig _ st hg]
        exact ⟨rfl, hst⟩

lemma recv_loop_quiet_then_reset (orig : ℚ) (e : WaitEv) (he : e.setsReset = true)
    (pre : List WaitEv)
    (hpre : ∀ ev ∈ pre, ev.setsReset = false ∧ ev.pushes = [] ∧
      ev.setsComplete = false ∧ 0 ≤ ev.elapsed) :
    ∀ (t0 : ℚ) (r : Nat), (pre.map WaitEv.elapsed).sum ≤ t0 →
    recv_loop orig ⟨t0, [], false, false, r⟩ (pre ++ [e]) =
      ⟨orig, e.pushes, e.setsComplete, false, r + 1⟩ := by
  induction pre with
  | nil =>
      intro t0 r hsum
      simp only [List.map_nil, List.sum_nil] at hsum
      rw [List.nil_append,
        recv_loop_cons_guard orig e [] ⟨t0, [], false, false, r⟩ ⟨rfl, hsum, rfl⟩]
      rw [he]
      simp only [Bool.or_true, if_pos]
      rfl
  | cons ev rest ih =>
      intro t0 r hsum
      obtain ⟨hr, hp, hc, helapsed⟩ := hpre ev (by simp)
      simp only [List.map_cons, List.sum_cons] at hsum
      have hnn : 0 ≤ (rest.map WaitEv.elapsed).sum := by
        apply List.sum_nonneg
        intro x hx
        obtain ⟨evx, hin, hxeq⟩ := List.mem_map.mp hx
        exact hxeq ▸ (hpre evx (by simp [hin])).2.2.2
      have hsum2 : (rest.map WaitEv.elapsed).sum ≤ t0 - ev.elapsed := by linarith
      have ht0 : (0 : ℚ) ≤ t0 := by linarith
      rw [List.cons_append,
        recv_loop_cons_guard orig ev (rest ++ [e]) ⟨t0, [], false, false, r⟩
          ⟨rfl, ht0, rfl⟩]
      rw [hr, hp, hc]
      simp only [Bool.or_self, if_neg Bool.false_ne_true, List.append_nil,
        Bool.or_false]
      exact ih (fun x hx => hpre x (List.mem_cons_of_mem _ hx)) (t0 - ev.elapsed) r
        hsum2

/-- C8: during one `Request.recv(t)` call, if a single STATUS 100 CONTINUE
sets `reset_timeout` while waiting (after a quiet stretch that has not yet
exhausted the budget, and with no further CONTINUE afterwards), then the
remaining budget is restored to the original `t` exactly once, and the flag
is cleared by the restoring iteration. -/
theorem C8_continue_restores_budget_once (t : ℚ) (pre post : List WaitEv)
    (e : WaitEv)
    (hpre : ∀ ev ∈ pre, ev.setsReset = false ∧ ev.pushes = [] ∧
      ev.setsComplete = false ∧ 0 ≤ ev.elapsed)
    (hsum : (pre.map WaitEv.elapsed).sum ≤ t)
    (he : e.setsReset = true)
    (hpost : ∀ ev ∈ post, ev.setsReset = false) :
    recv_loop t ⟨t, [], false, false, 0⟩ (pre ++ [e]) =
        ⟨t, e.pushes, e.setsComplete, false, 1⟩ ∧
      (recv_loop t ⟨t, [], false, false, 0⟩ ((pre ++ [e]) ++ post)).restores = 1 := by
  have hmid := recv_loop_quiet_then_reset t e he pre hpre t 0 hsum
  refine ⟨hmid, ?_⟩
  rw [recv_loop_append, hmid]
  exact (recv_loop_no_reset t post ⟨t, e.pushes, e.setsComplete, false, 1⟩ hpost rfl).1

/-- C8 witness: budget 10, one quiet 3-second wait, then a CONTINUE arriving
after 2 more seconds, then a delivering tail: restored to 10 exactly once. -/
theorem C8_continue_restores_budget_once_witness :
    recv_loop 10 ⟨10, [], false, false, 0⟩
        ([⟨3, [], false, false⟩] ++ [⟨2, [], false, true⟩]) =
      ⟨10, [], false, false, 1⟩ ∧
    (recv_loop 10 ⟨10, [], false, false, 0⟩
        (([⟨3, [], false, false⟩] ++ [⟨2, [], false, true⟩]) ++
          [⟨4, [.vstr "r"], true, false⟩])).restores = 1 := by
  have h := C8_continue_restores_budget_once 10
    [⟨3, [], false, false⟩] [⟨4, [.vstr "r"], true, false⟩] ⟨2, [], false, true⟩
    (by
      intro ev hev
      fin_cases hev
      refine ⟨rfl, rfl, rfl, by norm_num⟩)
    (by
      simp only [List.map_cons, List.map_nil, List.sum_cons, List.sum_nil]
      norm_num)
    rfl
    (by
      intro ev hev
      fin_cases hev
      rfl)
  exact h

/-- Python truthiness of an optional header string: absent (None) and the
empty string are falsy. -/
def truthy : Option String → Bool
  | none => false
  | some s => !(s.isEmpty)

/-- The inputs of one translator request that http_translator.py `process`
and `set_to_addr` read: whether the `osrf-msg` form field was found
(`self.body`), whether `osrf.json.to_object(self.body)` yields a non-empty
message list (`parse_request`), the `X-OpenSRF-service` and `X-OpenSRF-to`
headers, the thread and the caller IP (`get_remote_host`). -/
structure TransRequest where
  bodyPresent : Bool
  bodyParses : Bool
  service : Option String
  recipient : Option String
  thread : String
  remote_host : String

/-- One affinity-cache value as installed by `init_headers` (line 267):
the caller IP and the drone JID the reply came from. -/
structure CacheEntry where
  ip : String
  jid : String
  deriving DecidableEq, Repr

/-- http_translator.py `HTTPTranslator.set_to_addr` (lines 231-255): with a
truthy service header the recipient must be absent, and is then derived as
`<router>@<domain>/<service>`; with a truthy TO header and no service, the
cached entry for the thread must match BOTH the caller IP and the requested
recipient; everything else fails. -/
def set_to_addr (routerName domain : String) (req : TransRequest)
    (cache : List (String × CacheEntry)) : Bool × Option String :=
  if truthy req.service then
    if truthy req.recipient then (false, req.recipient)
    else
      (true, some (routerName ++ "@" ++ domain ++ "/" ++ (req.service.getD "")))
  else
    if truthy req.recipient then
      match dictGet cache req.thread with
      | some entry =>
          (decide (entry.ip = req.remote_host) &&
            decide (entry.jid = req.recipient.getD ""), req.recipient)
      | none => (false, req.recipient)
    else (false, req.recipient)

/-- mod_python `apache.HTTP_BAD_REQUEST`. -/
def HTTP_BAD_REQUEST : Nat := 400

/-- The gate sequence of http_translator.py `process` (lines 151-160): 400
for a missing body, 400 when `set_to_addr` fails, 400 when the body does not
parse; `none` means the request proceeds to the bus. -/
def process_gate (routerName domain : String) (req : TransRequest)
    (cache : List (String × CacheEntry)) : Option Nat :=
  if req.bodyPresent = false then some HTTP_BAD_REQUEST
  else if (set_to_addr routerName domain req cache).1 = false then
    some HTTP_BAD_REQUEST
  else if req.bodyParses = false then some HTTP_BAD_REQUEST
  else none

lemma process_gate_cases (routerName domain : String) (req : TransRequest)
    (cache : List (String × CacheEntry)) :
    process_gate routerName domain req cache = none ∨
      process_gate routerName domain req cache = some HTTP_BAD_REQUEST := by
  unfold process_gate
  split
  · right
    rfl
  · split
    · right
      rfl
    · split
      · right
        rfl
      · left
        rfl

/-- C9: translator session affinity.  For a well-formed body: a request
carrying both X-OpenSRF-to and X-OpenSRF-service, or neither, is refused
with HTTP 400; a request carrying only X-OpenSRF-to proceeds if and only if
the shared cache maps its thread to exactly (caller IP, requested JID). -/
theorem C9_http_affinity (routerName domain : String) (req : TransRequest)
    (cache : List (String × CacheEntry))
    (hbody : req.bodyPresent = true) (hparse : req.bodyParses = true) :
    (truthy req.service = true → truthy req.recipient = true →
      process_gate routerName domain req cache = some HTTP_BAD_REQUEST) ∧
    (truthy req.service = false → truthy req.recipient = false →
      process_gate routerName domain req cache = some HTTP_BAD_REQUEST) ∧
    (truthy req.service = false → truthy req.recipient = true →
      (process_gate routerName domain req cache = none ↔
        dictGet cache req.thread =
          some ⟨req.remote_host, req.recipient.getD ""⟩)) ∧
    (process_gate routerName domain req cache = none ∨
      process_gate routerName domain req cache = some HTTP_BAD_REQUEST) := by
  refine ⟨?_, ?_, ?_, process_gate_cases routerName domain req cache⟩
  · intro hs hr
    simp [process_gate, set_to_addr, hbody, hs, hr]
  · intro hs hr
    simp [process_gate, set_to_addr, hbody, hs, hr]
  · intro hs hr
    cases hc : dictGet cache req.thread with
    | none => simp [process_gate, set_to_addr, hbody, hparse, hs, hr, hc]
    | some entry =>
        cases entry with
        | mk ip jid =>
            by_cases hip : ip = req.remote_host
            · by_cases hjid : jid = req.recipient.getD ""
              · simp [process_gate, set_to_addr, hbody, hparse, hs, hr, hc, hip,
                  hjid]
              · simp [process_gate, set_to_addr, hbody, hparse, hs, hr, hc, hip,
                  hjid]
            · simp [process_gate, set_to_addr, hbody, hparse, hs, hr, hc, hip]

/-- C9 witness: a continuation request to drone JID d1 on thread t1 from IP
10.0.0.1, with the cache holding exactly that pair, proceeds; flipping the
cached IP makes it fail with 400. -/
theorem C9_http_affinity_witness :
    process_gate "router" "dom"
        ⟨true, true, none, some "d1", "t1", "10.0.0.1"⟩
        [("t1", ⟨"10.0.0.1", "d1"⟩)] = none ∧
      process_gate "router" "dom"
        ⟨true, true, none, some "d1", "t1", "10.0.0.2"⟩
        [("t1", ⟨"10.0.0.1", "d1"⟩)] = some HTTP_BAD_REQUEST := by
  constructor
  · exact (((C9_http_affinity "router" "dom"
      ⟨true, true, none, some "d1", "t1", "10.0.0.1"⟩
      [("t1", ⟨"10.0.0.1", "d1"⟩)] rfl rfl).2.2.1) rfl rfl).mpr rfl
  · rfl

end OpenSRF
